import Mathlib

/-!
Shallow embedding of the inference-orchestration core of the multitenant-ai
backend (src/backend/app), together with proofs settling the frozen claims
about it.

Conventions of the embedding:
* Python floats are idealised as `ℚ`; `round(x, 6)` is round-half-even at six
  decimal places (Python 3 `round` semantics).
* Redis keys `rate_limit:{tenant}:{user}:{granularity}:{bucket}` are modelled
  as the structured tuple that the format string serialises; the Redis store
  is a total function from keys to counts with absent keys reading 0
  (a `GET` miss is falsy, and `INCR`-created values are always positive).
* Key TTLs (`EXPIRE`) are real-time behaviour and are not modelled; bucket
  rollover is visible through the bucket component of the key instead.
* External collaborators (Redis, Bedrock/OpenAI/HuggingFace/custom network
  endpoints, ChromaDB) are oracles supplied as explicit arguments.
-/

namespace MultitenantAI

/-! ## Rate limiter (src/backend/app/services/rate_limiter.py) -/

/-- Window granularity appearing in a Redis rate-limit key
(`:minute:` or `:hour:` in the formatted key). -/
inductive Window where
  | minute
  | hour
deriving DecidableEq

/-- Structured form of the Redis key
`rate_limit:{tenant_id}:{user_id}:{granularity}:{bucket}`. -/
structure RKey where
  tenant : String
  user : Int
  window : Window
  bucket : Nat
deriving DecidableEq

/-- `rate_limit:{tenant_id}:{user_id}:minute:{current_time // 60}` -/
def minuteKey (tenant : String) (user : Int) (now : Nat) : RKey :=
  ⟨tenant, user, Window.minute, now / 60⟩

/-- `rate_limit:{tenant_id}:{user_id}:hour:{current_time // 3600}` -/
def hourKey (tenant : String) (user : Int) (now : Nat) : RKey :=
  ⟨tenant, user, Window.hour, now / 3600⟩

/-- The Redis counter store: key to count, absent keys read 0. -/
def RState : Type := RKey → Nat

/-- Initial store: no keys present. -/
def emptyR : RState := fun _ => 0

/-- `INCR key` -/
def RState.incr (st : RState) (k : RKey) : RState :=
  fun k2 => if k2 = k then st k2 + 1 else st k2

/-- Python truthiness of the `Optional[int]` limit arguments:
`if limit_per_minute:` is taken only when the limit is present and nonzero. -/
def truthyLimit : Option Nat → Bool
  | none => false
  | some n => n != 0

/-- One window branch of `RateLimiter.check_rate_limit`: when the limit is
truthy, `GET` the counter; reject when it is present (nonzero, since counters
are created by `INCR`) and at or above the limit; otherwise `INCR` the key.
Returns `none` on rejection, `some` of the updated store on pass, together
with the keys read and the keys incremented. -/
def windowCheck (key : RKey) (limit : Option Nat) (st : RState) :
    Option RState × List RKey × List RKey :=
  match limit with
  | none => (some st, [], [])
  | some l =>
    if l = 0 then (some st, [], [])
    else
      let c := st key
      if c ≠ 0 ∧ l ≤ c then (none, [key], [])
      else (some (st.incr key), [key], [key])

/-- Result of a `check_rate_limit` call: the returned boolean, the Redis
store after the call, and the counter keys read and incremented by the call. -/
structure RLOutcome where
  allowed : Bool
  state : RState
  reads : List RKey
  incrs : List RKey

/-- `RateLimiter.check_rate_limit(tenant_id, user_id, limit_per_minute,
limit_per_hour)` at time `now`: the per-minute window is checked (and on pass
incremented) first, then the per-hour window; the first rejection returns
`False` immediately, leaving any increment already made by the same call in
place. -/
def check_rate_limit (tenant : String) (user : Int)
    (limit_per_minute limit_per_hour : Option Nat) (now : Nat) (st : RState) :
    RLOutcome :=
  match windowCheck (minuteKey tenant user now) limit_per_minute st with
  | (none, r1, i1) => ⟨false, st, r1, i1⟩
  | (some st1, r1, i1) =>
    match windowCheck (hourKey tenant user now) limit_per_hour st1 with
    | (none, r2, i2) => ⟨false, st1, r1 ++ r2, i1 ++ i2⟩
    | (some st2, r2, i2) => ⟨true, st2, r1 ++ r2, i1 ++ i2⟩

/-- `n` successive `check_rate_limit` calls with the same arguments at the
same time, threading the Redis store; returns the list of returned booleans
and the final store. -/
def rateLimitRun (tenant : String) (user : Int)
    (limit_per_minute limit_per_hour : Option Nat) (now : Nat) :
    Nat → RState → List Bool × RState
  | 0, st => ([], st)
  | n + 1, st =>
    let o := check_rate_limit tenant user limit_per_minute limit_per_hour now st
    let rest := rateLimitRun tenant user limit_per_minute limit_per_hour now n o.state
    (o.allowed :: rest.1, rest.2)

/-- The chat endpoint's admission gate
(src/backend/app/api/v1/endpoints/chat.py line 42):
`rate_limiter.check_rate_limit(tenant_id, current_user.id)`, i.e. both limit
arguments left at their `None` defaults. -/
def chatAdmission (tenant : String) (user : Int) (now : Nat) (st : RState) :
    RLOutcome :=
  check_rate_limit tenant user none none now st

/-! ## Cost computation
(`_calculate_cost` in multi_provider_ai_service.py and ai_service.py) -/

/-- Round-half-even to an integer (Python 3 `round` tie behaviour). -/
def roundHalfEven (q : ℚ) : ℤ :=
  if q - ⌊q⌋ < 1 / 2 then ⌊q⌋
  else if 1 / 2 < q - ⌊q⌋ then ⌊q⌋ + 1
  else if Even ⌊q⌋ then ⌊q⌋ else ⌊q⌋ + 1

/-- Python `round(q, 6)`. -/
def roundTo6 (q : ℚ) : ℚ :=
  (roundHalfEven (q * 1000000) : ℚ) / 1000000

/-- Model configuration entry of `MultiProviderAIService.model_configs`. -/
structure ModelConfig where
  provider : String
  max_tokens : Nat
  temperature : ℚ
  cost_per_1k_input : ℚ
  cost_per_1k_output : ℚ
  max_concurrent : Nat
  priority : Nat
deriving DecidableEq

/-- Model configuration entry of `AIService.model_configs`. -/
structure AIModelConfig where
  max_tokens : Nat
  temperature : ℚ
  cost_per_1k_input : ℚ
  cost_per_1k_output : ℚ
deriving DecidableEq

/-- Python `dict.get` over an association list. -/
def lookup {α : Type} (l : List (String × α)) (k : String) : Option α :=
  (l.find? (fun p => p.1 = k)).map (fun p => p.2)

/-- `MultiProviderAIService.model_configs` (multi_provider_ai_service.py
lines 69-158). -/
def mp_model_configs : List (String × ModelConfig) :=
  [ ("anthropic.claude-3-sonnet-20240229-v1:0",
      ⟨"bedrock", 4000, 0.7, 0.003, 0.015, 50, 1⟩),
    ("anthropic.claude-3-haiku-20240307-v1:0",
      ⟨"bedrock", 4000, 0.7, 0.00025, 0.00125, 100, 2⟩),
    ("meta.llama-2-70b-chat-v1",
      ⟨"bedrock", 4000, 0.7, 0.00165, 0.00219, 30, 3⟩),
    ("gpt-4", ⟨"openai", 4000, 0.7, 0.03, 0.06, 20, 1⟩),
    ("gpt-4-turbo", ⟨"openai", 4000, 0.7, 0.01, 0.03, 30, 2⟩),
    ("gpt-3.5-turbo", ⟨"openai", 4000, 0.7, 0.0015, 0.002, 50, 3⟩),
    ("microsoft/DialoGPT-large", ⟨"huggingface", 1000, 0.7, 0.0, 0.0, 10, 4⟩),
    ("google/flan-t5-xxl", ⟨"huggingface", 1000, 0.7, 0.0, 0.0, 10, 4⟩),
    ("custom-tenant-model", ⟨"custom", 4000, 0.7, 0.0, 0.0, 5, 1⟩) ]

/-- `AIService.model_configs` (ai_service.py lines 39-64). -/
def ai_model_configs : List (String × AIModelConfig) :=
  [ ("anthropic.claude-3-sonnet-20240229-v1:0", ⟨4000, 0.7, 0.003, 0.015⟩),
    ("anthropic.claude-3-haiku-20240307-v1:0", ⟨4000, 0.7, 0.00025, 0.00125⟩),
    ("meta.llama-2-70b-chat-v1", ⟨4000, 0.7, 0.00165, 0.00219⟩),
    ("meta.llama-2-13b-chat-v1", ⟨4000, 0.7, 0.00075, 0.001⟩) ]

/-- The linear (pre-rounding) cost form
`input_cost + output_cost` of `_calculate_cost`. -/
def costUnrounded (cost_per_1k_input cost_per_1k_output : ℚ)
    (input_tokens output_tokens : Nat) : ℚ :=
  ((input_tokens : ℚ) / 1000) * cost_per_1k_input
    + ((output_tokens : ℚ) / 1000) * cost_per_1k_output

/-- `_calculate_cost(model, input_tokens, output_tokens, model_config)`
(multi_provider_ai_service.py lines 525-529 and ai_service.py lines 232-236,
identical bodies):
`round(input_tokens/1000 * cost_per_1k_input
      + output_tokens/1000 * cost_per_1k_output, 6)`. -/
def calculate_cost (cost_per_1k_input cost_per_1k_output : ℚ)
    (input_tokens output_tokens : Nat) : ℚ :=
  roundTo6 (costUnrounded cost_per_1k_input cost_per_1k_output
    input_tokens output_tokens)

/-- The spec's reference cost definition, written from the spec's words:
`cost(modelDescriptor, inputTokens, outputTokens)
  = round(inputTokens/1000 * costIn + outputTokens/1000 * costOut, 6)`. -/
def referenceCost (costIn costOut : ℚ) (inputTokens outputTokens : Nat) : ℚ :=
  roundTo6 ((inputTokens : ℚ) / 1000 * costIn
    + (outputTokens : ℚ) / 1000 * costOut)

/-! ## Aggregate metrics
(`_update_metrics` in multi_provider_ai_service.py lines 531-551; the
enterprise_ai_service.py variant, lines 355-370, is the same without the
`provider_usage` map) -/

/-- `self.metrics` of `MultiProviderAIService`. -/
structure Metrics where
  total_requests : Nat
  successful_requests : Nat
  failed_requests : Nat
  average_latency : ℚ
  total_cost : ℚ
  provider_usage : String → Nat

/-- Initial metrics dict (multi_provider_ai_service.py lines 161-168). -/
def initialMetrics : Metrics :=
  ⟨0, 0, 0, 0, 0, fun _ => 0⟩

/-- `MultiProviderAIService._update_metrics(processing_time, cost, success,
provider)`: increment `total_requests`; increment exactly one of
`successful_requests` / `failed_requests`; fold `processing_time` into
`average_latency` by the incremental mean over the new `total_requests`;
add `cost`; increment the provider's entry of `provider_usage`. -/
def update_metrics (m : Metrics) (processing_time cost : ℚ) (success : Bool)
    (provider : String) : Metrics :=
  let total := m.total_requests + 1
  { total_requests := total
    successful_requests := m.successful_requests + (if success then 1 else 0)
    failed_requests := m.failed_requests + (if success then 0 else 1)
    average_latency :=
      (m.average_latency * ((total : ℚ) - 1) + processing_time) / (total : ℚ)
    total_cost := m.total_cost + cost
    provider_usage := fun p =>
      if p = provider then m.provider_usage p + 1 else m.provider_usage p }

/-- One completed attempt as reported to `_update_metrics`:
the arguments of one call. -/
structure UpdateEvent where
  processing_time : ℚ
  cost : ℚ
  success : Bool
  provider : String

/-- Fold a sequence of `_update_metrics` calls over the initial metrics. -/
def applyEvents (l : List UpdateEvent) : Metrics :=
  l.foldl
    (fun m e => update_metrics m e.processing_time e.cost e.success e.provider)
    initialMetrics

/-! ## Retry (`EnterpriseAIService._generate_with_retry`,
enterprise_ai_service.py lines 289-324, decorated with tenacity
`retry(stop=stop_after_attempt(3),
wait=wait_exponential(multiplier=1, min=4, max=10))`) -/

/-- `AIServiceError(message)` (app/core/exceptions.py lines 22-27). -/
structure AIServiceError where
  detail : String
deriving DecidableEq

instance : Inhabited AIServiceError := ⟨⟨"AI service error"⟩⟩

/-- A chat message dict: `role` and `content`. -/
structure Message where
  role : String
  content : String
deriving DecidableEq

/-- `_messages_to_prompt` / the loop of `_prepare_llama_request`: user turns
become `Human: ...`, assistant turns `Assistant: ...`, other roles are
dropped, and a trailing `Assistant:` is appended. -/
def messages_to_prompt (messages : List Message) : String :=
  (messages.foldl
    (fun acc msg =>
      if msg.role = "user" then acc ++ "Human: " ++ msg.content ++ "\n\n"
      else if msg.role = "assistant" then
        acc ++ "Assistant: " ++ msg.content ++ "\n\n"
      else acc)
    "") ++ "Assistant:"

/-- Request body for a Claude Bedrock model
(`_prepare_claude_request`). -/
structure ClaudeBody where
  max_tokens : Nat
  temperature : ℚ
  messages : List Message
deriving DecidableEq

/-- Request body for a Llama Bedrock model
(`_prepare_llama_request`). -/
structure LlamaBody where
  prompt : String
  max_gen_len : Nat
  temperature : ℚ
deriving DecidableEq

/-- The provider payload sent to `bedrock_client.invoke_model`. -/
inductive BedrockBody where
  | claude (body : ClaudeBody)
  | llama (body : LlamaBody)
deriving DecidableEq

/-- `_prepare_claude_request(messages, temperature, max_tokens)`
(`anthropic_version` is a constant string; omitted). -/
def prepare_claude_request (messages : List Message) (temperature : ℚ)
    (max_tokens : Nat) : ClaudeBody :=
  ⟨max_tokens, temperature, messages⟩

/-- `_prepare_llama_request(messages, temperature, max_tokens)`
(`top_p` is the constant 0.9; omitted). -/
def prepare_llama_request (messages : List Message) (temperature : ℚ)
    (max_tokens : Nat) : LlamaBody :=
  ⟨messages_to_prompt messages, max_tokens, temperature⟩

/-- Python `str.startswith`, over the character sequence. -/
def startswith (s pre : String) : Bool :=
  pre.data.isPrefixOf s.data

/-- The model-family branch at the head of `_generate_with_retry`
(lines 299-311) and of `AIService.generate_response` (lines 122-131):
`model.startswith("anthropic")` selects the Claude body,
`model.startswith("meta")` the Llama body; any other model id raises
`AIServiceError("Unsupported model: ...")`. -/
def prepareRequestBody (model : String) (messages : List Message)
    (temperature : ℚ) (max_tokens : Nat) : Option BedrockBody :=
  if startswith model "anthropic" then
    some (BedrockBody.claude (prepare_claude_request messages temperature max_tokens))
  else if startswith model "meta" then
    some (BedrockBody.llama (prepare_llama_request messages temperature max_tokens))
  else
    none

/-- Raw provider response after JSON decoding, abstracted to the fields the
service reads back out of it. -/
structure RawResponse where
  content : String
  input_tokens : Nat
  output_tokens : Nat
deriving DecidableEq

/-- Outcome of running a tenacity-decorated callable: the final result, the
number of attempts executed, and the sleep lengths between attempts, in
order. -/
structure RetryTrace (ε α : Type) where
  result : Except ε α
  attempts : Nat
  delays : List ℚ

/-- tenacity `wait_exponential(multiplier, min, max)` evaluated after the
failed attempt numbered `attempt`:
`max(max(0, min), min(multiplier * 2^attempt, max))`. -/
def waitExponential (multiplier minDelay maxDelay : ℚ) (attempt : Nat) : ℚ :=
  max (max 0 minDelay) (min (multiplier * 2 ^ attempt) maxDelay)

/-- The backoff curve of `_generate_with_retry`:
`wait_exponential(multiplier=1, min=4, max=10)`. -/
def tenacityWait (attempt : Nat) : ℚ :=
  waitExponential 1 4 10 attempt

/-- The tenacity retry loop: run the attempt numbered `attempt`; stop on
success; on failure, stop with the attempt's error once no budget is left
(`stop_after_attempt`), otherwise sleep `wait attempt` and go again. `fuel`
counts the attempts still allowed including the current one; the `fuel = 0`
branch is never reached from a positive budget. -/
def retryAux {ε α : Type} [Inhabited ε] (wait : Nat → ℚ)
    (act : Nat → Except ε α) : Nat → Nat → RetryTrace ε α
  | _, 0 => ⟨Except.error default, 0, []⟩
  | attempt, fuel + 1 =>
    match act attempt with
    | Except.ok a => ⟨Except.ok a, 1, []⟩
    | Except.error e =>
      if fuel = 0 then ⟨Except.error e, 1, []⟩
      else
        let rest := retryAux wait act (attempt + 1) fuel
        ⟨rest.result, rest.attempts + 1, wait attempt :: rest.delays⟩

/-- Run a tenacity-decorated callable with `stop_after_attempt budget`. -/
def retryRun {ε α : Type} [Inhabited ε] (budget : Nat) (wait : Nat → ℚ)
    (act : Nat → Except ε α) : RetryTrace ε α :=
  retryAux wait act 1 budget

/-- One attempt of `_generate_with_retry`: rebuild the request body (the
whole decorated function re-executes on every attempt), then perform the
`invoke_model` network call, here an oracle indexed by attempt number and
payload. A model id outside both families raises the unsupported-model
error inside the retried function. -/
def generateAttempt (model : String) (messages : List Message)
    (temperature : ℚ) (max_tokens : Nat)
    (invoke : Nat → BedrockBody → Except AIServiceError RawResponse)
    (attempt : Nat) : Except AIServiceError RawResponse :=
  match prepareRequestBody model messages temperature max_tokens with
  | none => Except.error ⟨"Unsupported model: " ++ model⟩
  | some body => invoke attempt body

/-- `EnterpriseAIService._generate_with_retry` as the tenacity loop
(3 attempts, exponential backoff 1/4/10) around `generateAttempt`. -/
def generate_with_retry (model : String) (messages : List Message)
    (temperature : ℚ) (max_tokens : Nat)
    (invoke : Nat → BedrockBody → Except AIServiceError RawResponse) :
    RetryTrace AIServiceError RawResponse :=
  retryRun 3 tenacityWait (generateAttempt model messages temperature max_tokens invoke)

/-! ## Retrieval (`RAGService.get_relevant_context`,
rag_service.py lines 144-194) -/

/-- The collaborator's query result, one `(document, distance)` pair per
returned item, in the order ChromaDB returned them (`documents[0]` zipped
with `distances[0]`). -/
def QueryResults : Type := List (String × ℚ)

/-- The threshold filter of `get_relevant_context`: keep the documents whose
similarity `1 - distance` is at least `similarity_threshold`, in order. -/
def relevantPairs (results : QueryResults) (similarity_threshold : ℚ) :
    List (String × ℚ) :=
  results.filter (fun r => similarity_threshold ≤ 1 - r.2)

/-- `RAGService.get_relevant_context(query, tenant_id, limit,
similarity_threshold)` as a function of the collaborator's query result:
`None` when the collaborator returned nothing, otherwise the
threshold-passing documents joined with blank lines, or `None` when none
passed. -/
def get_relevant_context (results : QueryResults)
    (similarity_threshold : ℚ) : Option String :=
  if results.isEmpty then none
  else
    let relevant_docs := (relevantPairs results similarity_threshold).map (fun r => r.1)
    if relevant_docs.isEmpty then none
    else some (String.intercalate "\n\n" relevant_docs)

/-! ## `MultiProviderAIService.generate_response`
(multi_provider_ai_service.py lines 170-303) -/

/-- The attributes an instance of `MultiProviderAIService` actually has:
the methods defined on the class plus the attributes assigned in
`__init__`. Python attribute lookup of any other name raises
`AttributeError`. -/
def mpDefinedAttrs : List String :=
  [ "__init__", "generate_response", "_generate_bedrock_response",
    "_generate_openai_response", "_generate_huggingface_response",
    "_generate_custom_response", "_check_tenant_model_access",
    "_get_tenant_config", "_get_tenant_cluster_endpoint",
    "_messages_to_prompt", "_parse_response", "_calculate_cost",
    "_update_metrics", "_prepare_claude_request", "_prepare_llama_request",
    "get_metrics", "get_available_models", "train_custom_model",
    "_store_custom_model_info",
    "bedrock_client", "openai_client", "huggingface_client", "rag_service",
    "rate_limiter", "executor", "model_configs", "metrics" ]

/-- Whether `self.name` resolves on a `MultiProviderAIService` instance. -/
def mpHasAttr (name : String) : Bool :=
  mpDefinedAttrs.contains name

/-- A Python exception surfaced by `MultiProviderAIService.generate_response`:
either an `AIServiceError` raised deliberately, or an `AttributeError` from a
failed attribute lookup (including the one inside the `except` handler). -/
inductive PyError where
  | aiServiceError (detail : String)
  | attributeError (detail : String)
deriving DecidableEq

/-- Python `str(e)` for the exceptions above. -/
def PyError.message : PyError → String
  | PyError.aiServiceError d => d
  | PyError.attributeError d => d

/-- The `AttributeError` raised when `self.name` does not resolve on a
`MultiProviderAIService` instance. -/
def missingAttr (name : String) : PyError :=
  PyError.attributeError
    ("MultiProviderAIService object has no attribute " ++ name)

/-- Whether a surfaced exception is an `AIServiceError` (as opposed to some
other Python exception such as `AttributeError`). -/
def raisedAIServiceError {α : Type} : Except PyError α → Bool
  | Except.error (PyError.aiServiceError _) => true
  | _ => false

/-- Oracle for the external effects `generate_response` performs before the
provider call: the (assumed-answerable) rate-limit check, the tenant model
access check, and the provider network endpoints keyed by provider name. -/
structure MPOracle where
  rateLimitOk : Bool
  tenantAccessOk : Bool
  providerResponse : String → Except PyError RawResponse

/-- The fields of a `MultiProviderAIResponse` the orchestration computes
(wall-clock latency, request id and echo fields omitted). -/
structure MultiProviderAIResponse where
  content : String
  provider : String
  model_used : String
  input_tokens : Nat
  output_tokens : Nat
  total_tokens : Nat
  cost_usd : ℚ

/-- The provider dispatch of `generate_response` (lines 218-235): each of the
four known providers performs exactly one network call; any other provider
string raises without a call. Returns the outcome and the number of provider
network calls performed. -/
def mpDispatch (o : MPOracle) (provider : String) :
    Except PyError RawResponse × Nat :=
  if provider = "bedrock" ∨ provider = "openai" ∨ provider = "huggingface"
      ∨ provider = "custom" then
    (o.providerResponse provider, 1)
  else
    (Except.error (PyError.aiServiceError ("Unsupported provider: " ++ provider)), 0)

/-- Result of the `try` body of `MultiProviderAIService.generate_response`:
the outcome, the provider network call count, and the local binding of
`model_config` at the moment the body finished or raised (`none` = the name
was never assigned, `some none` = assigned `None` by the failed registry
lookup at line 197, `some (some cfg)` = assigned a config dict). The binding
matters because the `except` handler evaluates
`model_config.get("provider", "unknown") if 'model_config' in locals() else
"unknown"` (line 294). -/
structure MPBodyResult where
  outcome : Except PyError MultiProviderAIResponse
  networkCalls : Nat
  model_config_local : Option (Option ModelConfig)

/-- The `try` body of `MultiProviderAIService.generate_response`: rate-limit
gate (raising before `model_config` is assigned), registry lookup (binding
`model_config`, possibly to `None`), tenant access check, then the calls
`self._enhance_prompt_with_rag(...)` and
`self._build_conversation_context(...)` — attribute lookups that fail on
this class (see `mpDefinedAttrs`) — then provider dispatch, parse, cost. -/
def mp_generate_body (o : MPOracle) (model tenant_id : String) :
    MPBodyResult :=
  if o.rateLimitOk = false then
    ⟨Except.error (PyError.aiServiceError "Rate limit exceeded"), 0, none⟩
  else
    match lookup mp_model_configs model with
    | none =>
      ⟨Except.error (PyError.aiServiceError ("Unsupported model: " ++ model)),
        0, some none⟩
    | some cfg =>
      if o.tenantAccessOk = false then
        ⟨Except.error (PyError.aiServiceError
          ("Model " ++ model ++ " not available for tenant " ++ tenant_id)),
          0, some (some cfg)⟩
      else if mpHasAttr "_enhance_prompt_with_rag" = false then
        ⟨Except.error (missingAttr "_enhance_prompt_with_rag"), 0,
          some (some cfg)⟩
      else if mpHasAttr "_build_conversation_context" = false then
        ⟨Except.error (missingAttr "_build_conversation_context"), 0,
          some (some cfg)⟩
      else
        match mpDispatch o cfg.provider with
        | (Except.error e, n) => ⟨Except.error e, n, some (some cfg)⟩
        | (Except.ok raw, n) =>
          let cost := calculate_cost cfg.cost_per_1k_input
            cfg.cost_per_1k_output raw.input_tokens raw.output_tokens
          ⟨Except.ok
            ⟨raw.content, cfg.provider, model, raw.input_tokens,
              raw.output_tokens, raw.input_tokens + raw.output_tokens, cost⟩,
            n, some (some cfg)⟩

/-- `MultiProviderAIService.generate_response`: the `try` body wrapped by the
`except` clause (lines 293-303). The handler first evaluates
`model_config.get("provider", "unknown") if 'model_config' in locals() else
"unknown"`; when the body raised with `model_config` bound to `None` (the
unknown-model path), that lookup itself raises `AttributeError`, masking the
original exception, and the `raise AIServiceError(...)` at line 303 is never
reached; on every other raising path the handler re-raises
`AIServiceError("Failed to generate response: " + str(e))`. -/
def mp_generate_response (o : MPOracle) (model tenant_id : String) :
    Except PyError MultiProviderAIResponse × Nat :=
  match mp_generate_body o model tenant_id with
  | ⟨Except.ok r, n, _⟩ => (Except.ok r, n)
  | ⟨Except.error _e, n, some none⟩ =>
    (Except.error
      (PyError.attributeError "NoneType object has no attribute get"), n)
  | ⟨Except.error e, n, _⟩ =>
    (Except.error
      (PyError.aiServiceError
        ("Failed to generate response: " ++ e.message)), n)

/-! ## `AIService.generate_response` (ai_service.py lines 66-200) -/

/-- Oracle for the external effects of `AIService.generate_response`: the
retrieval context returned by `rag_service.get_relevant_context` (falsy
result modelled as `none`) and the Bedrock `invoke_model` endpoint. -/
structure AIOracle where
  rag_context : Option String
  invoke : BedrockBody → Except AIServiceError RawResponse

/-- The fields of an `AIResponse` the orchestration computes (wall-clock
latency and request id omitted). -/
structure AIResponse where
  content : String
  model_used : String
  input_tokens : Nat
  output_tokens : Nat
  total_tokens : Nat
  cost_usd : ℚ

/-- The fallback configuration
`self.model_configs["anthropic.claude-3-sonnet-20240229-v1:0"]` used by
`AIService.generate_response` for a model id absent from the registry. -/
def ai_default_config : AIModelConfig :=
  ⟨4000, 0.7, 0.003, 0.015⟩

/-- The prompt-augmentation f-string shared by ai_service.py (lines 99-104)
and enterprise_ai_service.py (lines 250-255). -/
def ragTemplate (context prompt : String) : String :=
  "Context from knowledge base:\n" ++ context ++ "\n\nUser question: "
    ++ prompt
    ++ "\n\nPlease answer the user's question using the provided context when relevant."

/-- Python `l[-n:]`. -/
def lastN {α : Type} (n : Nat) (l : List α) : List α :=
  l.drop (l.length - n)

/-- The `try` body of `AIService.generate_response`: registry lookup with
fallback to the sonnet entry, optional retrieval augmentation, conversation
window of the last 10 turns, model-family body preparation (raising the
unsupported-model error outside both families), one `invoke_model` network
call, parse, cost. Returns the outcome and the network call count. -/
def ai_generate_body (o : AIOracle) (prompt model : String) (use_rag : Bool)
    (conversation_history : List Message) (temperature : Option ℚ)
    (max_tokens : Option Nat) : Except AIServiceError AIResponse × Nat :=
  let cfg := (lookup ai_model_configs model).getD ai_default_config
  let final_temperature := temperature.getD cfg.temperature
  let final_max_tokens := max_tokens.getD cfg.max_tokens
  let enhanced_prompt :=
    if use_rag then
      match o.rag_context with
      | some ctx => ragTemplate ctx prompt
      | none => prompt
    else prompt
  let messages := lastN 10 conversation_history ++ [⟨"user", enhanced_prompt⟩]
  match prepareRequestBody model messages final_temperature final_max_tokens with
  | none => (Except.error ⟨"Unsupported model: " ++ model⟩, 0)
  | some body =>
    match o.invoke body with
    | Except.error e => (Except.error e, 1)
    | Except.ok raw =>
      let cost := calculate_cost cfg.cost_per_1k_input cfg.cost_per_1k_output
        raw.input_tokens raw.output_tokens
      (Except.ok
        ⟨raw.content, model, raw.input_tokens, raw.output_tokens,
          raw.input_tokens + raw.output_tokens, cost⟩, 1)

/-- `AIService.generate_response`: the `try` body wrapped by the `except`
clause (lines 192-200), which re-raises every exception as
`AIServiceError("Failed to generate response: ...")`. -/
def ai_generate_response (o : AIOracle) (prompt model : String)
    (use_rag : Bool) (conversation_history : List Message)
    (temperature : Option ℚ) (max_tokens : Option Nat) :
    Except AIServiceError AIResponse × Nat :=
  match ai_generate_body o prompt model use_rag conversation_history
      temperature max_tokens with
  | (Except.ok r, n) => (Except.ok r, n)
  | (Except.error e, n) =>
    (Except.error ⟨"Failed to generate response: " ++ e.detail⟩, n)

/-! ## Concrete inputs used by witness theorems -/

/-- A stub provider response. -/
def okRaw : RawResponse := ⟨"4", 5, 1⟩

/-- An oracle whose provider calls all succeed with `okRaw`. -/
def okMPOracle : MPOracle := ⟨true, true, fun _ => Except.ok okRaw⟩

/-- An `AIService` oracle: no retrieval context, successful Bedrock call. -/
def okAIOracle : AIOracle := ⟨none, fun _ => Except.ok okRaw⟩

/-- An `invoke_model` oracle that always fails with a transient error. -/
def failInvoke : Nat → BedrockBody → Except AIServiceError RawResponse :=
  fun _ _ => Except.error ⟨"network"⟩

/-- An `invoke_model` oracle failing on attempts 1 and 2, succeeding on 3. -/
def failTwiceInvoke : Nat → BedrockBody → Except AIServiceError RawResponse :=
  fun n _ => if n ≤ 2 then Except.error ⟨"network"⟩ else Except.ok okRaw

/-! # Theorems -/

/-! ## Helper lemmas -/

theorem roundHalfEven_nonneg {q : ℚ} (hq : 0 ≤ q) : 0 ≤ roundHalfEven q := by
  unfold roundHalfEven
  have h0z : (0 : ℤ) ≤ ⌊q⌋ := Int.floor_nonneg.mpr hq
  split_ifs <;> omega

theorem roundTo6_nonneg {q : ℚ} (hq : 0 ≤ q) : 0 ≤ roundTo6 q := by
  unfold roundTo6
  have h := roundHalfEven_nonneg (q := q * 1000000) (by positivity)
  positivity

theorem costUnrounded_nonneg {ci co : ℚ} (hci : 0 ≤ ci) (hco : 0 ≤ co)
    (i o : Nat) : 0 ≤ costUnrounded ci co i o := by
  unfold costUnrounded
  positivity

theorem mp_missing_enhance :
    mpHasAttr "_enhance_prompt_with_rag" = false := by decide

/-! ## Claim C10 — `check_rate_limit` with both limits defaulted to `None`
admits unconditionally, reading and incrementing nothing -/

/-- Claim C10: a `check_rate_limit` call with `limit_per_minute` and
`limit_per_hour` both `None` — exactly how the chat endpoint invokes it —
returns `True` for every tenant and user, leaves the Redis store unchanged,
and neither reads nor increments any counter; hence the chat endpoint's
admission gate admits every request unconditionally. -/
theorem claim_C10 (tenant : String) (user : Int) (now : Nat) (st : RState) :
    (chatAdmission tenant user now st).allowed = true ∧
    (chatAdmission tenant user now st).state = st ∧
    (chatAdmission tenant user now st).reads = [] ∧
    (chatAdmission tenant user now st).incrs = [] ∧
    chatAdmission tenant user now st
      = check_rate_limit tenant user none none now st :=
  ⟨rfl, rfl, rfl, rfl, rfl⟩

/-! ## Claim C1 — `MultiProviderAIService.generate_response` can never
return successfully -/

/-- Claim C1 counterexample: the claim asserts every call raises
`AIServiceError`, but on the unknown-model path (rate limit admitted,
`"no-such-model"` absent from the registry) `model_config` is bound to
`None`, so the `except` handler's own `model_config.get(...)` at line 294
raises `AttributeError` before the `raise AIServiceError(...)` at line 303
is reached: the surfaced exception is not an `AIServiceError`. -/
theorem claim_C1_counterexample :
    okMPOracle.rateLimitOk = true ∧
    lookup mp_model_configs "no-such-model" = none ∧
    (mp_generate_response okMPOracle "no-such-model" "acme").1
      = Except.error
          (PyError.attributeError "NoneType object has no attribute get") ∧
    raisedAIServiceError
      (mp_generate_response okMPOracle "no-such-model" "acme").1 = false :=
  ⟨rfl, rfl, rfl, rfl⟩

/-- Claim C1, amended: every call to
`MultiProviderAIService.generate_response`, for any model, tenant and
admitted rate-limit state, raises and never returns a
`MultiProviderAIResponse` — every path that survives the rate-limit,
registry and tenant-access checks reaches the attribute lookup
`self._enhance_prompt_with_rag`, which is not defined on the class. The
raised exception is `AIServiceError` on every path except the unknown-model
path, where `model_config` is `None` and the `except` handler itself
crashes with `AttributeError`, masking the unsupported-model error. -/
theorem claim_C1_amended (o : MPOracle) (model tenant_id : String) :
    (∃ e : PyError,
      (mp_generate_response o model tenant_id).1 = Except.error e) ∧
    (o.rateLimitOk = true → lookup mp_model_configs model = none →
      (mp_generate_response o model tenant_id).1
        = Except.error
            (PyError.attributeError "NoneType object has no attribute get")) ∧
    (o.rateLimitOk = false →
      ∃ d : String, (mp_generate_response o model tenant_id).1
        = Except.error (PyError.aiServiceError d)) ∧
    (∀ cfg : ModelConfig, lookup mp_model_configs model = some cfg →
      ∃ d : String, (mp_generate_response o model tenant_id).1
        = Except.error (PyError.aiServiceError d)) := by
  refine ⟨?_, ?_, ?_, ?_⟩
  · unfold mp_generate_response mp_generate_body
    cases hr : o.rateLimitOk with
    | false => exact ⟨_, rfl⟩
    | true =>
      cases hm : lookup mp_model_configs model with
      | none =>
        simp only [hr]
        exact ⟨_, rfl⟩
      | some cfg =>
        cases ht : o.tenantAccessOk with
        | false =>
          simp only [hr, ht]
          exact ⟨_, rfl⟩
        | true =>
          simp only [hr, ht, mp_missing_enhance]
          exact ⟨_, rfl⟩
  · intro hrl hm
    unfold mp_generate_response mp_generate_body
    rw [hrl, hm]
    rfl
  · intro hrl
    unfold mp_generate_response mp_generate_body
    rw [hrl]
    exact ⟨_, rfl⟩
  · intro cfg hm
    unfold mp_generate_response mp_generate_body
    cases hr : o.rateLimitOk with
    | false => exact ⟨_, rfl⟩
    | true =>
      simp only [hr, hm]
      cases ht : o.tenantAccessOk with
      | false =>
        simp only [ht]
        exact ⟨_, rfl⟩
      | true =>
        simp only [ht, mp_missing_enhance]
        exact ⟨_, rfl⟩

/-- Witness for the amended claim C1 at concrete inputs: the unknown-model
path surfaces `AttributeError`, and a registry model surfaces
`AIServiceError`. -/
theorem claim_C1_amended_witness :
    okMPOracle.rateLimitOk = true ∧
    lookup mp_model_configs "no-such-model" = none ∧
    (mp_generate_response okMPOracle "no-such-model" "acme").1
      = Except.error
          (PyError.attributeError "NoneType object has no attribute get") ∧
    (∃ d : String,
      (mp_generate_response okMPOracle "gpt-4" "acme").1
        = Except.error (PyError.aiServiceError d)) := by
  refine ⟨rfl, rfl, ?_, ?_⟩
  · exact (claim_C1_amended okMPOracle "no-such-model" "acme").2.1 rfl rfl
  · exact (claim_C1_amended okMPOracle "gpt-4" "acme").2.2.2
      ⟨"openai", 4000, 0.7, 0.03, 0.06, 20, 1⟩ rfl

/-! ## Claim C3 — cost computation -/

/-- Claim C3 counterexample: `_calculate_cost` is not linear in the token
counts. With the haiku model's registry prices, four input tokens cost
`0.000001` (the rounding of `0.000001`) while one input token costs `0`
(the rounding of `0.00000025`), so `cost(4,0) ≠ 4 * cost(1,0)`. -/
theorem claim_C3_counterexample :
    lookup mp_model_configs "anthropic.claude-3-haiku-20240307-v1:0"
      = some ⟨"bedrock", 4000, 0.7, 0.00025, 0.00125, 100, 2⟩ ∧
    calculate_cost 0.00025 0.00125 4 0
      ≠ 4 * calculate_cost 0.00025 0.00125 1 0 := by
  constructor
  · rfl
  · have h1 : calculate_cost 0.00025 0.00125 1 0 = 0 := by
      unfold calculate_cost costUnrounded roundTo6
      norm_num
      unfold roundHalfEven
      norm_num
    have h4 : calculate_cost 0.00025 0.00125 4 0 = 1 / 1000000 := by
      unfold calculate_cost costUnrounded roundTo6
      norm_num
      unfold roundHalfEven
      norm_num
    rw [h1, h4]
    norm_num

/-- Claim C3, amended: `_calculate_cost` returns exactly the reference
definition `round(inputTokens/1000 * costIn + outputTokens/1000 * costOut,
6)`; the result is non-negative whenever the per-1K prices are (which holds
for every registry entry of both services); `cost(m, 0, 0) = 0`; and the
pre-rounding cost is linear in `(inputTokens, outputTokens)` — the rounded
cost itself is not (see the counterexample). -/
theorem claim_C3_amended :
    (∀ (ci co : ℚ) (i o : Nat),
      calculate_cost ci co i o = referenceCost ci co i o) ∧
    (∀ (ci co : ℚ), 0 ≤ ci → 0 ≤ co → ∀ (i o : Nat),
      0 ≤ calculate_cost ci co i o) ∧
    (∀ p ∈ mp_model_configs,
      0 ≤ p.2.cost_per_1k_input ∧ 0 ≤ p.2.cost_per_1k_output) ∧
    (∀ p ∈ ai_model_configs,
      0 ≤ p.2.cost_per_1k_input ∧ 0 ≤ p.2.cost_per_1k_output) ∧
    (∀ ci co : ℚ, calculate_cost ci co 0 0 = 0) ∧
    (∀ (ci co : ℚ) (i1 o1 i2 o2 : Nat),
      costUnrounded ci co (i1 + i2) (o1 + o2)
        = costUnrounded ci co i1 o1 + costUnrounded ci co i2 o2) := by
  refine ⟨fun _ _ _ _ => rfl, ?_, ?_, ?_, ?_, ?_⟩
  · intro ci co hci hco i o
    exact roundTo6_nonneg (costUnrounded_nonneg hci hco i o)
  · intro p hp
    fin_cases hp <;> constructor <;> norm_num
  · intro p hp
    fin_cases hp <;> constructor <;> norm_num
  · intro ci co
    unfold calculate_cost costUnrounded roundTo6 roundHalfEven
    norm_num
  · intro ci co i1 o1 i2 o2
    unfold costUnrounded
    push_cast
    ring

/-- Witness for the amended claim C3 at concrete inputs. -/
theorem claim_C3_amended_witness :
    (0 : ℚ) ≤ 0.003 ∧ (0 : ℚ) ≤ 0.015 ∧
    0 ≤ calculate_cost 0.003 0.015 5 1 ∧
    calculate_cost 0.003 0.015 0 0 = 0 ∧
    costUnrounded 0.003 0.015 (5 + 2) (1 + 3)
      = costUnrounded 0.003 0.015 5 1 + costUnrounded 0.003 0.015 2 3 := by
  have hci : (0 : ℚ) ≤ 0.003 := by norm_num
  have hco : (0 : ℚ) ≤ 0.015 := by norm_num
  exact ⟨hci, hco, claim_C3_amended.2.1 0.003 0.015 hci hco 5 1,
    claim_C3_amended.2.2.2.2.1 0.003 0.015,
    claim_C3_amended.2.2.2.2.2 0.003 0.015 5 1 2 3⟩

/-! ## Claim C7 — aggregate metrics update -/

/-- Claim C7 counterexample: after one successful attempt with processing
time 10 and one failed attempt, the claim's average — the mean over
successful attempts' samples only — would be 10, but `_update_metrics`
divides by all completed attempts and folds the failed call's sample in,
giving 5. -/
theorem claim_C7_counterexample :
    (update_metrics (update_metrics initialMetrics 10 0 true "bedrock")
      0 0 false "bedrock").successful_requests = 1 ∧
    (update_metrics (update_metrics initialMetrics 10 0 true "bedrock")
      0 0 false "bedrock").average_latency = 5 ∧
    (5 : ℚ) ≠ 10 := by
  refine ⟨rfl, ?_, by norm_num⟩
  unfold update_metrics initialMetrics
  norm_num

/-- Claim C7, amended: every completed attempt increments `total_requests`
and exactly one of `successful_requests` / `failed_requests`, adds the
attempt's cost to `total_cost`, and increments the provider's counter in
`provider_usage`; `average_latency` is maintained by the incremental mean
`newAvg = (oldAvg*(n-1) + sample)/n` where `n` is the count of ALL completed
attempts and every attempt contributes its reported processing-time sample
(the failure call sites pass 0), not only successful ones. Stated as the
closed form after any sequence of `_update_metrics` calls. -/
theorem claim_C7_amended (l : List UpdateEvent) :
    (applyEvents l).total_requests = l.length ∧
    (applyEvents l).successful_requests
      = (l.filter (fun e => e.success)).length ∧
    (applyEvents l).failed_requests
      = (l.filter (fun e => !e.success)).length ∧
    (applyEvents l).successful_requests + (applyEvents l).failed_requests
      = l.length ∧
    (applyEvents l).average_latency
      = (l.map (fun e => e.processing_time)).sum / (l.length : ℚ) ∧
    (applyEvents l).total_cost = (l.map (fun e => e.cost)).sum ∧
    (∀ p : String, (applyEvents l).provider_usage p
      = (l.filter (fun e => e.provider = p)).length) := by
  induction l using List.reverseRecOn with
  | nil =>
    refine ⟨rfl, rfl, rfl, rfl, ?_, rfl, fun p => rfl⟩
    norm_num [applyEvents, initialMetrics]
  | append_singleton l e ih =>
    obtain ⟨iht, ihs, ihf, ihsf, iha, ihc, ihp⟩ := ih
    have happ : applyEvents (l ++ [e])
        = update_metrics (applyEvents l) e.processing_time e.cost e.success
            e.provider := by
      simp [applyEvents, List.foldl_append]
    have ht : (applyEvents (l ++ [e])).total_requests = (l ++ [e]).length := by
      simp [happ, update_metrics, iht]
    have hsc : (applyEvents (l ++ [e])).successful_requests
        = ((l ++ [e]).filter (fun e => e.success)).length := by
      cases hs : e.success <;>
        simp [happ, update_metrics, List.filter_append, ihs, hs]
    have hfc : (applyEvents (l ++ [e])).failed_requests
        = ((l ++ [e]).filter (fun e => !e.success)).length := by
      cases hs : e.success <;>
        simp [happ, update_metrics, List.filter_append, ihf, hs]
    have hsum : (applyEvents (l ++ [e])).successful_requests
        + (applyEvents (l ++ [e])).failed_requests = (l ++ [e]).length := by
      cases hs : e.success <;>
        simp [happ, update_metrics, hs] <;> omega
    have hav : (applyEvents (l ++ [e])).average_latency
        = ((l ++ [e]).map (fun e => e.processing_time)).sum
            / (((l ++ [e]).length : ℚ)) := by
      have hL : (applyEvents (l ++ [e])).average_latency
          = ((applyEvents l).average_latency * ((l.length : ℚ) + 1 - 1)
              + e.processing_time) / ((l.length : ℚ) + 1) := by
        simp only [happ, update_metrics, iht]
        push_cast
        ring_nf
      rw [hL, iha]
      simp only [List.map_append, List.sum_append, List.length_append,
        List.map_cons, List.map_nil, List.sum_cons, List.sum_nil,
        List.length_cons, List.length_nil]
      rcases Nat.eq_zero_or_pos l.length with h0 | hpos
      · have hl : l = [] := List.length_eq_zero.mp h0
        subst hl
        norm_num
      · have hne : (l.length : ℚ) ≠ 0 := by
          exact_mod_cast Nat.pos_iff_ne_zero.mp hpos
        push_cast
        field_simp
    have hcost : (applyEvents (l ++ [e])).total_cost
        = ((l ++ [e]).map (fun e => e.cost)).sum := by
      simp [happ, update_metrics, ihc]
    have hprov : ∀ p : String, (applyEvents (l ++ [e])).provider_usage p
        = ((l ++ [e]).filter (fun e => e.provider = p)).length := by
      intro p
      by_cases hp : p = e.provider
      · subst hp
        simp [happ, update_metrics, List.filter_append, ihp]
      · simp [happ, update_metrics, List.filter_append, ihp, hp,
          show ¬ (e.provider = p) from fun h => hp h.symm]
    exact ⟨ht, hsc, hfc, hsum, hav, hcost, hprov⟩

/-! ## Retry-loop equation lemmas -/

theorem retryAux_ok {ε α : Type} [Inhabited ε] (wait : Nat → ℚ)
    (act : Nat → Except ε α) (attempt fuel : Nat) (a : α)
    (h : act attempt = Except.ok a) :
    retryAux wait act attempt (fuel + 1) = ⟨Except.ok a, 1, []⟩ := by
  unfold retryAux
  rw [h]

theorem retryAux_err_last {ε α : Type} [Inhabited ε] (wait : Nat → ℚ)
    (act : Nat → Except ε α) (attempt : Nat) (e : ε)
    (h : act attempt = Except.error e) :
    retryAux wait act attempt 1 = ⟨Except.error e, 1, []⟩ := by
  conv_lhs => unfold retryAux
  rw [h]
  rfl

theorem retryAux_err_step {ε α : Type} [Inhabited ε] (wait : Nat → ℚ)
    (act : Nat → Except ε α) (attempt fuel : Nat) (e : ε)
    (h : act attempt = Except.error e) (hf : fuel ≠ 0) :
    retryAux wait act attempt (fuel + 1)
      = ⟨(retryAux wait act (attempt + 1) fuel).result,
          (retryAux wait act (attempt + 1) fuel).attempts + 1,
          wait attempt :: (retryAux wait act (attempt + 1) fuel).delays⟩ := by
  conv_lhs => unfold retryAux
  rw [h]
  dsimp only
  rw [if_neg hf]

theorem tenacityWait_one : tenacityWait 1 = 4 := by
  unfold tenacityWait waitExponential
  norm_num

theorem tenacityWait_two : tenacityWait 2 = 4 := by
  unfold tenacityWait waitExponential
  norm_num

/-- The full three-attempt trace when every attempt of the retried callable
fails: three attempts, sleeps after the first and second, final error. -/
theorem retry_three_failures {ε α : Type} [Inhabited ε]
    (act : Nat → Except ε α) (e1 e2 e3 : ε)
    (h1 : act 1 = Except.error e1) (h2 : act 2 = Except.error e2)
    (h3 : act 3 = Except.error e3) :
    retryRun 3 tenacityWait act = ⟨Except.error e3, 3, [4, 4]⟩ := by
  have s3 : retryAux tenacityWait act 3 1 = ⟨Except.error e3, 1, []⟩ :=
    retryAux_err_last tenacityWait act 3 e3 h3
  have s2 : retryAux tenacityWait act 2 2
      = ⟨Except.error e3, 2, [tenacityWait 2]⟩ := by
    rw [show (2 : Nat) = 1 + 1 from rfl,
      retryAux_err_step tenacityWait act 2 1 e2 h2 (by decide), s3]
  have s1 : retryAux tenacityWait act 1 3
      = ⟨Except.error e3, 3, [tenacityWait 1, tenacityWait 2]⟩ := by
    rw [show (3 : Nat) = 2 + 1 from rfl,
      retryAux_err_step tenacityWait act 1 2 e1 h1 (by decide), s2]
  rw [retryRun, s1, tenacityWait_one, tenacityWait_two]

/-- The full trace when the retried callable fails twice then succeeds. -/
theorem retry_two_failures_then_ok {ε α : Type} [Inhabited ε]
    (act : Nat → Except ε α) (e1 e2 : ε) (a : α)
    (h1 : act 1 = Except.error e1) (h2 : act 2 = Except.error e2)
    (h3 : act 3 = Except.ok a) :
    retryRun 3 tenacityWait act = ⟨Except.ok a, 3, [4, 4]⟩ := by
  have s3 : retryAux tenacityWait act 3 1 = ⟨Except.ok a, 1, []⟩ :=
    retryAux_ok tenacityWait act 3 0 a h3
  have s2 : retryAux tenacityWait act 2 2
      = ⟨Except.ok a, 2, [tenacityWait 2]⟩ := by
    rw [show (2 : Nat) = 1 + 1 from rfl,
      retryAux_err_step tenacityWait act 2 1 e2 h2 (by decide), s3]
  have s1 : retryAux tenacityWait act 1 3
      = ⟨Except.ok a, 3, [tenacityWait 1, tenacityWait 2]⟩ := by
    rw [show (3 : Nat) = 2 + 1 from rfl,
      retryAux_err_step tenacityWait act 1 2 e1 h1 (by decide), s2]
  rw [retryRun, s1, tenacityWait_one, tenacityWait_two]

/-- Under `startswith model "anthropic"`, each attempt of
`_generate_with_retry` is exactly the `invoke_model` call on the Claude
payload. -/
theorem generateAttempt_anthropic (model : String) (messages : List Message)
    (temperature : ℚ) (max_tokens : Nat)
    (invoke : Nat → BedrockBody → Except AIServiceError RawResponse)
    (hm : startswith model "anthropic" = true) (n : Nat) :
    generateAttempt model messages temperature max_tokens invoke n
      = invoke n (BedrockBody.claude
          (prepare_claude_request messages temperature max_tokens)) := by
  unfold generateAttempt prepareRequestBody
  rw [hm]
  rfl

/-- Outside both model families, each attempt of `_generate_with_retry`
raises the unsupported-model error before reaching `invoke_model`. -/
theorem generateAttempt_unsupported (model : String)
    (messages : List Message) (temperature : ℚ) (max_tokens : Nat)
    (invoke : Nat → BedrockBody → Except AIServiceError RawResponse)
    (h1 : startswith model "anthropic" = false)
    (h2 : startswith model "meta" = false) (n : Nat) :
    generateAttempt model messages temperature max_tokens invoke n
      = Except.error ⟨"Unsupported model: " ++ model⟩ := by
  unfold generateAttempt prepareRequestBody
  rw [h1, h2]
  rfl

/-! ## Claim C5 — retry policy of `_generate_with_retry` -/

/-- Claim C5: under the retry policy of `_generate_with_retry`, a provider
invoke that fails transiently on exactly the first two attempts and then
succeeds yields the successful result after exactly 3 attempts, with the
backoff delays equal to `[4, 4]`, hence non-decreasing and within the
configured minimum 4 and maximum 10; an invoke that fails on all three
attempts surfaces the last error after exactly 3 attempts, with no 4th
attempt. -/
theorem claim_C5 :
    (∀ (model : String) (messages : List Message) (temperature : ℚ)
        (max_tokens : Nat)
        (invoke : Nat → BedrockBody → Except AIServiceError RawResponse)
        (e1 e2 : AIServiceError) (r : RawResponse),
      startswith model "anthropic" = true →
      (∀ b, invoke 1 b = Except.error e1) →
      (∀ b, invoke 2 b = Except.error e2) →
      (∀ b, invoke 3 b = Except.ok r) →
      (generate_with_retry model messages temperature max_tokens invoke).result
          = Except.ok r ∧
      (generate_with_retry model messages temperature max_tokens
        invoke).attempts = 3 ∧
      (generate_with_retry model messages temperature max_tokens
        invoke).delays = [4, 4] ∧
      List.Chain' (· ≤ ·)
        (generate_with_retry model messages temperature max_tokens
          invoke).delays ∧
      (∀ d ∈ (generate_with_retry model messages temperature max_tokens
          invoke).delays, 4 ≤ d ∧ d ≤ 10)) ∧
    (∀ (model : String) (messages : List Message) (temperature : ℚ)
        (max_tokens : Nat)
        (invoke : Nat → BedrockBody → Except AIServiceError RawResponse)
        (e : AIServiceError),
      startswith model "anthropic" = true →
      (∀ n b, invoke n b = Except.error e) →
      (generate_with_retry model messages temperature max_tokens invoke).result
          = Except.error e ∧
      (generate_with_retry model messages temperature max_tokens
        invoke).attempts = 3) := by
  constructor
  · intro model messages temperature max_tokens invoke e1 e2 r hm h1 h2 h3
    have hact := generateAttempt_anthropic model messages temperature
      max_tokens invoke hm
    have htrace : generate_with_retry model messages temperature max_tokens
        invoke = ⟨Except.ok r, 3, [4, 4]⟩ := by
      unfold generate_with_retry
      exact retry_two_failures_then_ok _ e1 e2 r
        (by rw [hact 1]; exact h1 _)
        (by rw [hact 2]; exact h2 _)
        (by rw [hact 3]; exact h3 _)
    refine ⟨by rw [htrace], by rw [htrace], by rw [htrace], ?_, ?_⟩
    · rw [htrace]
      norm_num [List.chain'_cons, List.chain'_singleton]
    · rw [htrace]
      intro d hd
      fin_cases hd <;> norm_num
  · intro model messages temperature max_tokens invoke e hm hfail
    have hact := generateAttempt_anthropic model messages temperature
      max_tokens invoke hm
    have htrace : generate_with_retry model messages temperature max_tokens
        invoke = ⟨Except.error e, 3, [4, 4]⟩ := by
      unfold generate_with_retry
      exact retry_three_failures _ e e e
        (by rw [hact 1]; exact hfail 1 _)
        (by rw [hact 2]; exact hfail 2 _)
        (by rw [hact 3]; exact hfail 3 _)
    exact ⟨by rw [htrace], by rw [htrace]⟩

/-- Witness for claim C5 at a concrete model and concrete invoke oracles. -/
theorem claim_C5_witness :
    startswith "anthropic.claude-3-haiku-20240307-v1:0" "anthropic" = true ∧
    (generate_with_retry "anthropic.claude-3-haiku-20240307-v1:0" [] 0.7 4000
      failTwiceInvoke).result = Except.ok okRaw ∧
    (generate_with_retry "anthropic.claude-3-haiku-20240307-v1:0" [] 0.7 4000
      failTwiceInvoke).attempts = 3 ∧
    (generate_with_retry "anthropic.claude-3-haiku-20240307-v1:0" [] 0.7 4000
      failInvoke).attempts = 3 := by
  have h := claim_C5.1 "anthropic.claude-3-haiku-20240307-v1:0" [] 0.7 4000
    failTwiceInvoke ⟨"network"⟩ ⟨"network"⟩ okRaw rfl
    (fun b => rfl) (fun b => rfl) (fun b => rfl)
  have h2 := claim_C5.2 "anthropic.claude-3-haiku-20240307-v1:0" [] 0.7 4000
    failInvoke ⟨"network"⟩ rfl (fun n b => rfl)
  exact ⟨rfl, h.1, h.2.1, h2.2⟩

/-! ## Claim C6 — permanent failures and the retry loop -/

/-- Claim C6 counterexample: the unsupported-model error raised inside
`_generate_with_retry` IS retried. For the model id `"no-such-model"` the
decorated function executes 3 attempts with backoff sleeps `[4, 4]` before
the error surfaces — not exactly once with no delay as the claim states. -/
theorem claim_C6_counterexample :
    (generate_with_retry "no-such-model" [] 0.7 4000 failInvoke).attempts
      = 3 ∧
    (generate_with_retry "no-such-model" [] 0.7 4000 failInvoke).delays
      = [4, 4] ∧
    (generate_with_retry "no-such-model" [] 0.7 4000 failInvoke).result
      = Except.error ⟨"Unsupported model: no-such-model"⟩ := by
  have hact : ∀ n, generateAttempt "no-such-model" [] 0.7 4000 failInvoke n
      = Except.error ⟨"Unsupported model: no-such-model"⟩ := fun n => rfl
  have htrace : generate_with_retry "no-such-model" [] 0.7 4000 failInvoke
      = ⟨Except.error ⟨"Unsupported model: no-such-model"⟩, 3, [4, 4]⟩ := by
    unfold generate_with_retry
    exact retry_three_failures _ _ _ _ (hact 1) (hact 2) (hact 3)
  exact ⟨by rw [htrace], by rw [htrace], by rw [htrace]⟩

/-- Claim C6, amended: a `ParseError` is indeed never retried — the parse
step runs outside `_generate_with_retry` — but the unsupported-model error
is raised inside the tenacity-decorated function and is retried like any
other exception: for every model id matching no supported model family,
`_generate_with_retry` executes exactly 3 attempts with backoff delays of 4
then 4 time units, and only then surfaces the unsupported-model error. -/
theorem claim_C6_amended (model : String) (messages : List Message)
    (temperature : ℚ) (max_tokens : Nat)
    (invoke : Nat → BedrockBody → Except AIServiceError RawResponse)
    (h1 : startswith model "anthropic" = false)
    (h2 : startswith model "meta" = false) :
    (generate_with_retry model messages temperature max_tokens invoke).result
        = Except.error ⟨"Unsupported model: " ++ model⟩ ∧
    (generate_with_retry model messages temperature max_tokens
      invoke).attempts = 3 ∧
    (generate_with_retry model messages temperature max_tokens invoke).delays
        = [4, 4] := by
  have hact := generateAttempt_unsupported model messages temperature
    max_tokens invoke h1 h2
  have htrace : generate_with_retry model messages temperature max_tokens
      invoke = ⟨Except.error ⟨"Unsupported model: " ++ model⟩, 3, [4, 4]⟩ := by
    unfold generate_with_retry
    exact retry_three_failures _ _ _ _ (hact 1) (hact 2) (hact 3)
  exact ⟨by rw [htrace], by rw [htrace], by rw [htrace]⟩

/-- Witness for the amended claim C6 at the concrete model id
`"no-such-model"`. -/
theorem claim_C6_amended_witness :
    startswith "no-such-model" "anthropic" = false ∧
    startswith "no-such-model" "meta" = false ∧
    (generate_with_retry "no-such-model" [] 0.7 4000
      (fun _ _ => Except.ok okRaw)).attempts = 3 := by
  exact ⟨rfl, rfl,
    (claim_C6_amended "no-such-model" [] 0.7 4000
      (fun _ _ => Except.ok okRaw) rfl rfl).2.1⟩

/-! ## Claim C4 — unknown model ids -/

/-- The `except` wrapper of `AIService.generate_response` rewraps the error
but never changes the number of network calls performed. -/
theorem ai_generate_response_count (o : AIOracle) (prompt model : String)
    (use_rag : Bool) (history : List Message) (t : Option ℚ)
    (mt : Option Nat) :
    (ai_generate_response o prompt model use_rag history t mt).2
      = (ai_generate_body o prompt model use_rag history t mt).2 := by
  unfold ai_generate_response
  rcases hb : ai_generate_body o prompt model use_rag history t mt
    with ⟨res, n⟩
  cases res <;> rfl

/-- Claim C4 counterexample: in `AIService.generate_response`, a model id
absent from the registry does NOT always fail with an unsupported-model
error: `"anthropic.unknown-model"` is not in `model_configs`, yet the
registry lookup falls back to the sonnet entry and the request is routed to
Bedrock — one provider network call, successful response. -/
theorem claim_C4_counterexample :
    lookup ai_model_configs "anthropic.unknown-model" = none ∧
    (ai_generate_response okAIOracle "hi" "anthropic.unknown-model" false []
      none none).2 = 1 ∧
    ((ai_generate_response okAIOracle "hi" "anthropic.unknown-model" false []
      none none).1).isOk = true :=
  ⟨rfl, rfl, rfl⟩

/-- Claim C4, amended: in `MultiProviderAIService.generate_response` a model
id absent from the registry always fails and performs zero provider network
calls, but the surfaced exception is not the unsupported-model error: the
unsupported-model `AIServiceError` raised at line 199 is masked by the
`except` handler, which crashes with `AttributeError` because `model_config`
is `None` (line 294); in `AIService.generate_response` an absent model id
falls back to the default sonnet configuration and fails with the
unsupported-model error (with zero network calls) only when the id also
matches no supported model family — an absent id with the `anthropic`
family prefix is routed to the provider with exactly one network call. -/
theorem claim_C4_amended :
    (∀ (o : MPOracle) (model tenant_id : String),
      o.rateLimitOk = true →
      lookup mp_model_configs model = none →
      (mp_generate_response o model tenant_id).1
        = Except.error
            (PyError.attributeError "NoneType object has no attribute get") ∧
      (mp_generate_response o model tenant_id).2 = 0) ∧
    (∀ (o : AIOracle) (prompt model : String) (use_rag : Bool)
        (history : List Message) (t : Option ℚ) (mt : Option Nat),
      startswith model "anthropic" = false →
      startswith model "meta" = false →
      (ai_generate_response o prompt model use_rag history t mt).1
        = Except.error ⟨"Failed to generate response: "
            ++ ("Unsupported model: " ++ model)⟩ ∧
      (ai_generate_response o prompt model use_rag history t mt).2 = 0) ∧
    (∀ (o : AIOracle) (prompt model : String) (use_rag : Bool)
        (history : List Message) (t : Option ℚ) (mt : Option Nat),
      startswith model "anthropic" = true →
      (ai_generate_response o prompt model use_rag history t mt).2 = 1) := by
  refine ⟨?_, ?_, ?_⟩
  · intro o model tenant_id hrl hm
    unfold mp_generate_response mp_generate_body
    rw [hrl, hm]
    exact ⟨rfl, rfl⟩
  · intro o prompt model use_rag history t mt h1 h2
    unfold ai_generate_response ai_generate_body prepareRequestBody
    rw [h1, h2]
    exact ⟨rfl, rfl⟩
  · intro o prompt model use_rag history t mt h1
    rw [ai_generate_response_count]
    unfold ai_generate_body prepareRequestBody
    dsimp only
    rw [if_pos h1]
    split
    · rename_i heq
      simp at heq
    · split <;> rfl

/-- Witness for the amended claim C4 at concrete inputs. -/
theorem claim_C4_amended_witness :
    okMPOracle.rateLimitOk = true ∧
    lookup mp_model_configs "no-such-model" = none ∧
    (mp_generate_response okMPOracle "no-such-model" "acme").2 = 0 ∧
    startswith "no-such-model" "anthropic" = false ∧
    (ai_generate_response okAIOracle "hi" "no-such-model" false [] none
      none).2 = 0 ∧
    (ai_generate_response okAIOracle "hi"
      "anthropic.claude-3-haiku-20240307-v1:0" false [] none none).2 = 1 := by
  refine ⟨rfl, rfl, ?_, rfl, ?_, ?_⟩
  · exact (claim_C4_amended.1 okMPOracle "no-such-model" "acme" rfl rfl).2
  · exact (claim_C4_amended.2.1 okAIOracle "hi" "no-such-model" false []
      none none rfl rfl).2
  · exact claim_C4_amended.2.2 okAIOracle "hi"
      "anthropic.claude-3-haiku-20240307-v1:0" false [] none none rfl

/-! ## Rate-limiter lemmas -/

/-- With only a positive per-minute limit configured, `check_rate_limit`
admits (and increments) exactly when the current minute bucket's counter is
below the limit, and otherwise rejects leaving the store unchanged. -/
theorem check_rate_limit_minute (tenant : String) (user : Int) (now : Nat)
    {L : Nat} (hL : 1 ≤ L) (st : RState) :
    check_rate_limit tenant user (some L) none now st
      = if st (minuteKey tenant user now) < L then
          ⟨true, st.incr (minuteKey tenant user now),
            [minuteKey tenant user now], [minuteKey tenant user now]⟩
        else ⟨false, st, [minuteKey tenant user now], []⟩ := by
  unfold check_rate_limit windowCheck
  dsimp only
  rw [if_neg (by omega : ¬ L = 0)]
  by_cases hc : st (minuteKey tenant user now) < L
  · rw [if_pos hc,
      if_neg (by omega :
        ¬ (st (minuteKey tenant user now) ≠ 0
            ∧ L ≤ st (minuteKey tenant user now)))]
    rfl
  · rw [if_neg hc,
      if_pos (by omega :
        st (minuteKey tenant user now) ≠ 0
          ∧ L ≤ st (minuteKey tenant user now))]

/-- The three possible outcomes of one window branch: pass without touching
the store (no limit, or a falsy limit of 0), reject leaving the store
unchanged, or pass incrementing exactly the window's key. -/
theorem windowCheck_out (key : RKey) (lim : Option Nat) (st : RState) :
    windowCheck key lim st = (some st, [], []) ∨
    windowCheck key lim st = (none, [key], []) ∨
    windowCheck key lim st = (some (st.incr key), [key], [key]) := by
  unfold windowCheck
  rcases lim with _ | l
  · exact Or.inl rfl
  · dsimp only
    split_ifs with h0 hg
    · exact Or.inl rfl
    · exact Or.inr (Or.inl rfl)
    · exact Or.inr (Or.inr rfl)

theorem rateLimitRun_succ (tenant : String) (user : Int)
    (lpm lph : Option Nat) (now n : Nat) (st : RState) :
    rateLimitRun tenant user lpm lph now (n + 1) st
      = ((check_rate_limit tenant user lpm lph now st).allowed
            :: (rateLimitRun tenant user lpm lph now n
                (check_rate_limit tenant user lpm lph now st).state).1,
          (rateLimitRun tenant user lpm lph now n
            (check_rate_limit tenant user lpm lph now st).state).2) := rfl

/-- The booleans returned by `n` successive minute-limited calls, as a
function of the starting counter value: call number `i` (0-based) is
admitted exactly when `counter + i < L`. -/
theorem rateLimitRun_results (tenant : String) (user : Int) (now : Nat)
    {L : Nat} (hL : 1 ≤ L) :
    ∀ (n : Nat) (st : RState),
      (rateLimitRun tenant user (some L) none now n st).1
        = (List.range n).map
            (fun i => decide (st (minuteKey tenant user now) + i < L)) := by
  intro n
  induction n with
  | zero => intro st; rfl
  | succ n ih =>
    intro st
    rw [rateLimitRun_succ, check_rate_limit_minute tenant user now hL st]
    by_cases hc : st (minuteKey tenant user now) < L
    · rw [if_pos hc]
      dsimp only
      rw [ih (st.incr (minuteKey tenant user now)),
        show (st.incr (minuteKey tenant user now)) (minuteKey tenant user now)
            = st (minuteKey tenant user now) + 1 from by simp [RState.incr],
        List.range_succ_eq_map, List.map_cons, List.map_map]
      congr 1
      · simp [hc]
      · apply List.map_congr_left
        intro i hi
        simp only [Function.comp]
        exact decide_eq_decide.mpr (by omega)
    · rw [if_neg hc]
      dsimp only
      rw [ih st, List.range_succ_eq_map, List.map_cons, List.map_map]
      congr 1
      · simp [hc]
      · apply List.map_congr_left
        intro i hi
        simp only [Function.comp]
        exact decide_eq_decide.mpr (by omega)

/-- Minute-limited runs touch no key other than the current minute key. -/
theorem rateLimitRun_state_ne (tenant : String) (user : Int) (now : Nat)
    {L : Nat} (hL : 1 ≤ L) :
    ∀ (n : Nat) (st : RState) (k : RKey), k ≠ minuteKey tenant user now →
      (rateLimitRun tenant user (some L) none now n st).2 k = st k := by
  intro n
  induction n with
  | zero => intro st k hk; rfl
  | succ n ih =>
    intro st k hk
    rw [rateLimitRun_succ, check_rate_limit_minute tenant user now hL st]
    by_cases hc : st (minuteKey tenant user now) < L
    · rw [if_pos hc]
      dsimp only
      rw [ih _ k hk]
      simp [RState.incr, hk]
    · rw [if_neg hc]
      dsimp only
      exact ih st k hk

/-- The minute counter after `n` minute-limited calls. -/
theorem rateLimitRun_state_mk (tenant : String) (user : Int) (now : Nat)
    {L : Nat} (hL : 1 ≤ L) :
    ∀ (n : Nat) (st : RState),
      (rateLimitRun tenant user (some L) none now n st).2
          (minuteKey tenant user now)
        = if L ≤ st (minuteKey tenant user now) then
            st (minuteKey tenant user now)
          else min (st (minuteKey tenant user now) + n) L := by
  intro n
  induction n with
  | zero =>
    intro st
    have h0 : (rateLimitRun tenant user (some L) none now 0 st).2 = st := rfl
    rw [h0]
    split_ifs <;> omega
  | succ n ih =>
    intro st
    rw [rateLimitRun_succ, check_rate_limit_minute tenant user now hL st]
    by_cases hc : st (minuteKey tenant user now) < L
    · rw [if_pos hc]
      dsimp only
      rw [ih (st.incr (minuteKey tenant user now))]
      have hi : (st.incr (minuteKey tenant user now))
          (minuteKey tenant user now)
          = st (minuteKey tenant user now) + 1 := by
        simp [RState.incr]
      rw [hi]
      split_ifs <;> omega
    · rw [if_neg hc]
      dsimp only
      rw [ih st]
      split_ifs <;> omega

/-! ## Claim C2 — fixed-window per-minute admission -/

/-- Claim C2: with a configured positive per-minute limit `L` and within a
single minute bucket (all calls at the same `now`), starting from a fresh
store, the first `L` calls return `True` (the counter rising to `L`) and
every further call returns `False`; once the bucket rolls over (any time
with a different `floor(now/60)`), admission succeeds again — "first N in
each whole window", not a rolling window. -/
theorem claim_C2 (tenant : String) (user : Int) (L now n : Nat)
    (hL : 1 ≤ L) :
    ((rateLimitRun tenant user (some L) none now n emptyR).1
        = (List.range n).map (fun i => decide (i < L))) ∧
    ((rateLimitRun tenant user (some L) none now n emptyR).2
        (minuteKey tenant user now) = min n L) ∧
    (∀ now2 : Nat, now2 / 60 ≠ now / 60 →
      (check_rate_limit tenant user (some L) none now2
        (rateLimitRun tenant user (some L) none now n emptyR).2).allowed
        = true) := by
  refine ⟨?_, ?_, ?_⟩
  · rw [rateLimitRun_results tenant user now hL n emptyR]
    simp [emptyR]
  · rw [rateLimitRun_state_mk tenant user now hL n emptyR]
    have h0 : emptyR (minuteKey tenant user now) = 0 := rfl
    rw [h0]
    split_ifs <;> omega
  · intro now2 hb
    have hk : minuteKey tenant user now2 ≠ minuteKey tenant user now := by
      intro h
      exact hb (congrArg RKey.bucket h)
    rw [check_rate_limit_minute tenant user now2 hL,
      rateLimitRun_state_ne tenant user now hL n emptyR _ hk,
      if_pos (show emptyR (minuteKey tenant user now2) < L from hL)]

/-- Witness for claim C2: limit 2, four calls in one bucket, then a call in
the next bucket. -/
theorem claim_C2_witness :
    (1 ≤ 2) ∧
    (rateLimitRun "acme" 7 (some 2) none 0 4 emptyR).1
      = [true, true, false, false] ∧
    (check_rate_limit "acme" 7 (some 2) none 60
      (rateLimitRun "acme" 7 (some 2) none 0 4 emptyR).2).allowed = true := by
  have h := claim_C2 "acme" 7 2 0 4 (by decide)
  refine ⟨by decide, ?_, h.2.2 60 (by decide)⟩
  rw [h.1]
  decide

/-! ## Claim C9 — what a rejected call leaves behind -/

/-- Claim C9 counterexample: a call rejected by the per-hour window has
already incremented the per-minute counter. With limits 1/minute and 1/hour,
an admitted call at time 0 and a second call at time 60 (new minute bucket,
same hour bucket): the second call is rejected, yet its minute counter went
from 0 to 1 during that rejected call. -/
theorem claim_C9_counterexample :
    (check_rate_limit "acme" 7 (some 1) (some 1) 60
      (check_rate_limit "acme" 7 (some 1) (some 1) 0 emptyR).state).allowed
      = false ∧
    (check_rate_limit "acme" 7 (some 1) (some 1) 0 emptyR).state
      (minuteKey "acme" 7 60) = 0 ∧
    (check_rate_limit "acme" 7 (some 1) (some 1) 60
      (check_rate_limit "acme" 7 (some 1) (some 1) 0 emptyR).state).state
      (minuteKey "acme" 7 60) = 1 :=
  ⟨rfl, rfl, rfl⟩

/-- Claim C9, amended: a call rejected by the per-minute window leaves every
counter unchanged, and no rejected call ever increments the per-hour
counter; but a call rejected by the per-hour window has already incremented
the per-minute counter (when a per-minute limit is configured), so after any
rejected call the store is either unchanged or differs exactly by one
increment of the current minute key. -/
theorem claim_C9_amended (tenant : String) (user : Int)
    (lpm lph : Option Nat) (now : Nat) (st : RState)
    (hrej : (check_rate_limit tenant user lpm lph now st).allowed = false) :
    (check_rate_limit tenant user lpm lph now st).state
        (hourKey tenant user now) = st (hourKey tenant user now) ∧
    ((check_rate_limit tenant user lpm lph now st).state = st ∨
      (check_rate_limit tenant user lpm lph now st).state
        = st.incr (minuteKey tenant user now)) := by
  have hkey : minuteKey tenant user now ≠ hourKey tenant user now := by
    simp [minuteKey, hourKey]
  unfold check_rate_limit at hrej ⊢
  rcases windowCheck_out (minuteKey tenant user now) lpm st
    with hm | hm | hm <;>
    rw [hm] at hrej ⊢ <;> (try dsimp only at hrej ⊢)
  · -- per-minute window passed without touching the store
    rcases windowCheck_out (hourKey tenant user now) lph st
      with hh | hh | hh <;>
      rw [hh] at hrej ⊢ <;> (try dsimp only at hrej ⊢)
    · simp at hrej
    · exact ⟨rfl, Or.inl rfl⟩
    · simp at hrej
  · -- rejected by the per-minute window: store untouched
    exact ⟨rfl, Or.inl rfl⟩
  · -- per-minute window incremented its counter
    rcases windowCheck_out (hourKey tenant user now) lph
      (st.incr (minuteKey tenant user now))
      with hh | hh | hh <;>
      rw [hh] at hrej ⊢ <;> (try dsimp only at hrej ⊢)
    · simp at hrej
    · -- rejected by the per-hour window: the minute increment stands
      refine ⟨?_, Or.inr rfl⟩
      simp only [RState.incr]
      rw [if_neg (fun h => hkey h.symm)]
    · simp at hrej

/-- Witness for the amended claim C9 at the counterexample's rejected call. -/
theorem claim_C9_amended_witness :
    (check_rate_limit "acme" 7 (some 1) (some 1) 60
      (check_rate_limit "acme" 7 (some 1) (some 1) 0 emptyR).state).allowed
      = false ∧
    (check_rate_limit "acme" 7 (some 1) (some 1) 60
      (check_rate_limit "acme" 7 (some 1) (some 1) 0 emptyR).state).state
        (hourKey "acme" 7 60)
      = (check_rate_limit "acme" 7 (some 1) (some 1) 0 emptyR).state
          (hourKey "acme" 7 60) := by
  have h : (check_rate_limit "acme" 7 (some 1) (some 1) 60
      (check_rate_limit "acme" 7 (some 1) (some 1) 0 emptyR).state).allowed
      = false := rfl
  exact ⟨h, (claim_C9_amended "acme" 7 (some 1) (some 1) 60 _ h).1⟩

/-! ## Claim C8 — `get_relevant_context` -/

/-- Claim C8: when the retrieval collaborator returns at most `limit` items
in its nearest-first order (distance ascending), every snippet kept by
`get_relevant_context` has similarity `1 - distance` at least
`similarity_threshold`, at most `limit` snippets are kept, they appear in
descending similarity order, and if no snippet passes the threshold (or the
collaborator returned nothing) the result is `None`; otherwise it is the
kept snippets joined by blank lines. -/
theorem claim_C8 (results : QueryResults) (similarity_threshold : ℚ)
    (limit : Nat) (hlen : results.length ≤ limit)
    (hsorted : List.Sorted (fun a b : String × ℚ => a.2 ≤ b.2) results) :
    (∀ p ∈ relevantPairs results similarity_threshold,
      similarity_threshold ≤ 1 - p.2) ∧
    (relevantPairs results similarity_threshold).length ≤ limit ∧
    List.Sorted (fun a b : String × ℚ => 1 - b.2 ≤ 1 - a.2)
      (relevantPairs results similarity_threshold) ∧
    (relevantPairs results similarity_threshold = [] →
      get_relevant_context results similarity_threshold = none) ∧
    (relevantPairs results similarity_threshold ≠ [] →
      get_relevant_context results similarity_threshold
        = some (String.intercalate "\n\n"
            ((relevantPairs results similarity_threshold).map
              (fun r => r.1)))) := by
  refine ⟨?_, ?_, ?_, ?_, ?_⟩
  · intro p hp
    have h := List.mem_filter.mp hp
    simpa using h.2
  · exact le_trans (List.length_filter_le _ _) hlen
  · exact (List.Pairwise.sublist (List.filter_sublist _) hsorted).imp
      (fun h => sub_le_sub_left h 1)
  · intro h
    unfold get_relevant_context
    by_cases he : results.isEmpty
    · simp [he]
    · simp [he, h]
  · intro h
    have hres : ¬ results.isEmpty := by
      intro h0
      apply h
      have : results = [] := by
        cases results with
        | nil => rfl
        | cons a l => simp at h0
      rw [this]
      rfl
    unfold get_relevant_context
    simp [hres, h]

/-- Witness for claim C8 on a two-document collaborator result. -/
theorem claim_C8_witness :
    ([(("doc1" : String), (1 : ℚ)/10), ("doc2", (1 : ℚ)/5)].length ≤ 5) ∧
    get_relevant_context [(("doc1" : String), (1 : ℚ)/10), ("doc2", (1 : ℚ)/5)]
      (7/10) = some "doc1\n\ndoc2" := by
  have c1 : (7 : ℚ)/10 ≤ 1 - 1/10 := by norm_num
  have c2 : (7 : ℚ)/10 ≤ 1 - 1/5 := by norm_num
  have hrel : relevantPairs
      [(("doc1" : String), (1 : ℚ)/10), ("doc2", (1 : ℚ)/5)] (7/10)
      = [(("doc1" : String), (1 : ℚ)/10), ("doc2", (1 : ℚ)/5)] := by
    unfold relevantPairs
    simp only [List.filter_cons, List.filter_nil, decide_eq_true_eq]
    rw [if_pos c1, if_pos c2]
  have hs : List.Sorted (fun a b : String × ℚ => a.2 ≤ b.2)
      [(("doc1" : String), (1 : ℚ)/10), ("doc2", (1 : ℚ)/5)] := by
    simp [List.sorted_cons]
    norm_num
  have h := claim_C8 [(("doc1" : String), (1 : ℚ)/10), ("doc2", (1 : ℚ)/5)]
    (7/10) 5 (by norm_num) hs
  refine ⟨by norm_num, ?_⟩
  rw [h.2.2.2.2 (by rw [hrel]; simp), hrel]
  rfl

end MultitenantAI
